import Mathlib

/-!
# GUIFrame: the host/page bridge of `src/GUIFrame.cpp`

A shallow embedding of the methods of `nodegui::GUIFrame` and the properties
of the specification that concern them.

* Values of both script runtimes (`Napi::Value` on the host side,
  `ul::JSValue` on the page side) are modelled by one type `Value`.
* A script function is known by an identifier; what a call to it returns is
  given by `Externals.hostFn` / `Externals.pageFn`, and every call made is
  appended to a log, so that "the handler was not invoked" is a statement
  about the log.
* `ThrowAsJavaScriptException()` leaves a pending exception and the method
  goes on to its `return`; an `Outcome` therefore holds both the returned
  value and the exception thrown, if any. The same holds for an error the
  host runtime reports inside an accessor (`Uint32Value()`, `Data()`): the
  exception is left pending, the accessor yields its default and the method
  goes on. A throw while an exception is pending does not replace it.
* The view is observed through the list of calls it received.
-/

namespace nodegui

/-! ## Numbers -/

/-- A script number (an IEEE-754 double): not-a-number, an infinity, or a
finite value. Every finite double is a rational number; the model admits all
rationals. Negative zero is not told apart from zero. -/
inductive JSNumber where
  | nan
  | inf (neg : Bool)
  | fin (q : ℚ)
deriving DecidableEq

/-- The number with the value of an integer (`Napi::Number::New`,
`ul::JSValue(int32_t)`). -/
def JSNumber.ofInt (i : Int) : JSNumber :=
  .fin (Rat.ofInt i)

/-- Integer part of a finite number, rounding toward zero. -/
def truncate (q : ℚ) : Int :=
  Int.tdiv q.num q.den

/-- Result of `Napi::Number::Uint32Value()` (`napi_get_value_uint32`): the
integer part modulo 2^32; zero for a non-finite number. -/
def Uint32Value : JSNumber → Nat
  | .fin q => (truncate q % 2 ^ 32).toNat
  | _ => 0

/-- Conversion of a `uint32_t` to `int` on assignment: the value modulo 2^32
read as a two's-complement 32-bit integer. -/
def toInt (u : Nat) : Int :=
  if u % 2 ^ 32 < 2 ^ 31 then ((u % 2 ^ 32 : Nat) : Int) else ((u % 2 ^ 32 : Nat) : Int) - 2 ^ 32

/-- Result of `Napi::Number::Int32Value()` (`napi_get_value_int32`): the
integer part modulo 2^32 read as a signed 32-bit integer; zero for a
non-finite number. -/
def Int32Value : JSNumber → Int
  | .fin q => toInt (truncate q % 2 ^ 32).toNat
  | _ => 0

/-! ## Values -/

/-- A value of either script runtime. Functions are known by an identifier.
An array buffer is its bytes. -/
inductive Value where
  | undefined
  | null
  | boolean (b : Bool)
  | number (n : JSNumber)
  | string (s : String)
  | function (f : Nat)
  | arrayBuffer (bytes : List Nat)
  | object (fields : List (String × Value))

namespace Value

def IsNull : Value → Bool
  | .null => true
  | _ => false

def IsString : Value → Bool
  | .string _ => true
  | _ => false

def IsFunction : Value → Bool
  | .function _ => true
  | _ => false

/-- True for every object, functions and array buffers included. -/
def IsObject : Value → Bool
  | .function _ => true
  | .arrayBuffer _ => true
  | .object _ => true
  | _ => false

/-- Text of a string value (`Napi::String::Utf8Value()`). -/
def Utf8Value : Value → String
  | .string s => s
  | _ => ""

/-- Bytes behind an array buffer (`Data()` with `ByteLength()`,
`JSObjectGetArrayBufferBytesPtr` with `JSObjectGetArrayBufferByteLength`).
Both sides give a null pointer and length zero for an object that is not an
array buffer; the host side reports an error besides, see `Value.DataError`. -/
def bytes : Value → List Nat
  | .arrayBuffer bs => bs
  | _ => []

end Value

/-- The text a `const char*` consumer reads from `s.c_str()` / `.data()`: the
characters before the first NUL. -/
def c_str (s : String) : String :=
  String.mk (s.data.takeWhile (fun c => c != Char.ofNat 0))

/-! ## Errors -/

inductive ErrorKind where
  | Error
  | TypeError
deriving DecidableEq

/-- A script exception: `Napi::Error` or `Napi::TypeError` with its message. -/
structure JSError where
  kind : ErrorKind
  message : String
deriving DecidableEq

/-- The exception pending after `first` and then `next` were thrown: one that
is already pending is kept. -/
def firstThrown (first next : Option JSError) : Option JSError :=
  match first with
  | some e => some e
  | none => next

/-- The exception of `Uint32Value()` applied to a value that is not a number
(`napi_number_expected`). -/
def numberExpected : JSError :=
  ⟨.TypeError, "A number was expected"⟩

/-- The exception of `Data()` applied to an object that is not an array buffer
(`napi_invalid_arg`). -/
def invalidArgument : JSError :=
  ⟨.Error, "Invalid argument"⟩

/-- The expression `info[i].As<Napi::Number>().Uint32Value()` on any value. The
cast is unchecked. For a number the result is its `Uint32Value`; for any other
value, an omitted argument included, the host runtime reports that a number
was expected: the exception is thrown and the result is 0. -/
def Value.AsUint32 : Value → Nat × Option JSError
  | .number n => (Uint32Value n, none)
  | _ => (0, some numberExpected)

/-- The exception of `info[0].As<Napi::ArrayBuffer>().Data()` (line 78): none
for an array buffer, the invalid-argument error for any other value. -/
def Value.DataError : Value → Option JSError
  | .arrayBuffer _ => none
  | _ => some invalidArgument

/-! ## Engine events -/

/-- Enumerators of `ul::MouseEvent::Type`. -/
inductive MouseEventType where
  | kType_MouseMoved
  | kType_MouseDown
  | kType_MouseUp
deriving DecidableEq

/-- Enumerators of `ul::MouseEvent::Button`. -/
inductive Button where
  | kButton_None
  | kButton_Left
  | kButton_Middle
  | kButton_Right
deriving DecidableEq

/-- Fields of `ul::MouseEvent`. The type has no constructor: a local
`ul::MouseEvent evt;` starts with whatever its storage holds. -/
structure MouseEvent where
  type : MouseEventType
  x : Int
  y : Int
  button : Button
deriving DecidableEq

/-- Enumerators of `ul::KeyEvent::Type`. -/
inductive KeyEventType where
  | kType_KeyDown
  | kType_KeyUp
  | kType_RawKeyDown
  | kType_Char
deriving DecidableEq

/-- The two fields of `ul::KeyEvent` the frame writes; the others keep what
the default constructor gave them. -/
structure KeyEvent where
  type : KeyEventType
  virtual_key_code : Int
deriving DecidableEq

/-- Enumerators of `ul::ScrollEvent::Type`. -/
inductive ScrollEventType where
  | kType_ScrollByPixel
  | kType_ScrollByPage
deriving DecidableEq

/-- Fields of `ul::ScrollEvent`; the deltas are `int`. -/
structure ScrollEvent where
  type : ScrollEventType
  delta_x : Int
  delta_y : Int
deriving DecidableEq

/-- A call received by `renderer->view()`. -/
inductive ViewCall where
  | LoadHTML (html : String)
  | FireMouseEvent (evt : MouseEvent)
  | FireKeyEvent (evt : KeyEvent)
  | FireScrollEvent (evt : ScrollEvent)
deriving DecidableEq

/-! ## State -/

/-- A call of a script function: which function, with which arguments. -/
structure Call where
  fn : Nat
  args : List Value

/-- What the frame's methods use and `GUIFrame.cpp` does not define. -/
structure Externals where
  /-- Value returned by the host function `f` called with `args`. -/
  hostFn : Nat → List Value → Value
  /-- Value returned by the page function `f` called with `args`. -/
  pageFn : Nat → List Value → Value
  ConvertNAPI2JSCObject : Value → Value
  ConvertJSC2NAPIObject : Value → Value
  GLFWMouseButtonToUltralightMouseButton : Nat → Button
  GLFWKeyCodeToUltralightKeyCode : Nat → Int
  UlCursorToString : Nat → String
  UlMessageLevelToString : Nat → String
  /-- The host property `console[name]`. -/
  console : String → Value

/-- The frame: its three callback slots (`Napi::FunctionReference`, `none`
when `IsEmpty()`), and what it acts on: the view, the page property
`window.onbinarymessage`, and the logs of the calls made into host functions
and into page functions. -/
structure GUIFrame where
  onbinarymessage : Option Nat
  oncursorchange : Option Nat
  onconsolemessage : Option Nat
  view : List ViewCall
  window_onbinarymessage : Value
  hostCalls : List Call
  pageCalls : List Call

/-- What a method leaves behind: the value returned, the exception pending in
the host runtime when it returns (if any), and the frame afterwards. -/
structure Outcome (α : Type) where
  ret : α
  thrown : Option JSError
  frame : GUIFrame

/-- A frame as the constructor leaves it (lines 16-21): the three references
are default-constructed, hence empty. -/
def GUIFrame.new (win : Value) : GUIFrame :=
  ⟨none, none, none, [], win, [], []⟩

/-- The frame after the view received `c`. -/
def GUIFrame.deliver (self : GUIFrame) (c : ViewCall) : GUIFrame :=
  { self with view := self.view ++ [c] }

/-- The frame after the host function `f` was called with `args`. -/
def GUIFrame.callHost (self : GUIFrame) (f : Nat) (args : List Value) : GUIFrame :=
  { self with hostCalls := self.hostCalls ++ [⟨f, args⟩] }

/-- The frame after the page function `f` was called with `args`. -/
def GUIFrame.callPage (self : GUIFrame) (f : Nat) (args : List Value) : GUIFrame :=
  { self with pageCalls := self.pageCalls ++ [⟨f, args⟩] }

/-- The argument `info[i]`; undefined past the end of the list. -/
def arg (info : List Value) (i : Nat) : Value :=
  info.getD i .undefined

/-! ## Methods called by the host -/

/-- `GUIFrame::LoadHTML` (lines 44-53). For a non-string the `TypeError` is
constructed but `ThrowAsJavaScriptException()` is not called on it. -/
def LoadHTML (self : GUIFrame) (info : List Value) : Outcome Value :=
  if !(arg info 0).IsString then
    ⟨.undefined, none, self⟩
  else
    let html := (arg info 0).Utf8Value
    ⟨.undefined, none, self.deliver (.LoadHTML (c_str html))⟩

/-- Arguments the page handler is called with (lines 77-90): the buffer
wrapped without copy, and the converted second argument when there are
exactly two arguments and the second is an object. -/
def pageArgs (ext : Externals) (info : List Value) : List Value :=
  let buffer := Value.arrayBuffer (arg info 0).bytes
  if info.length = 2 ∧ (arg info 1).IsObject = true then
    [buffer, ext.ConvertNAPI2JSCObject (arg info 1)]
  else
    [buffer]

/-- `GUIFrame::DispatchBinaryBuffer` (lines 65-101), host to page. When
`info[0]` passes the guard and is not an array buffer, `Data()` of line 78
throws and the method goes on with an empty buffer. -/
def DispatchBinaryBuffer (ext : Externals) (self : GUIFrame) (info : List Value) :
    Outcome Value :=
  match decide (info.length ≥ 1) && (arg info 0).IsObject, self.window_onbinarymessage with
  | true, .function f =>
    let err := (arg info 0).DataError
    let self1 := self.callPage f (pageArgs ext info)
    match ext.pageFn f (pageArgs ext info) with
    | .undefined => ⟨.undefined, err, self1⟩
    | .boolean b => ⟨.boolean b, err, self1⟩
    | .number n => ⟨.number n, err, self1⟩
    | _ =>
      ⟨.undefined,
        firstThrown err (some ⟨.TypeError, "'onbinarymessage' returned an invalid type"⟩),
        self1⟩
  | _, _ => ⟨.undefined, none, self⟩

/-- `GUIFrame::DispatchMouseEvent` (lines 103-129). `eventType` is the string
`info[0]`; `info1`, `info2`, `info3` are `info[1]`, `info[2]`, `info[3]`,
undefined when omitted. `evt0` is the content of the local `ul::MouseEvent evt;`
before any field is written. Lines 107-108 read `info[1]` and `info[2]` before
the type string is looked at. -/
def DispatchMouseEvent (ext : Externals) (evt0 : MouseEvent) (self : GUIFrame)
    (eventType : String) (info1 info2 info3 : Value) : Outcome Value :=
  let err := firstThrown info1.AsUint32.2 info2.AsUint32.2
  let evt1 := { evt0 with x := toInt info1.AsUint32.1, y := toInt info2.AsUint32.1 }
  let evt2 :=
    match info3 with
    | .number b =>
      { evt1 with button := ext.GLFWMouseButtonToUltralightMouseButton (Uint32Value b) }
    | _ => evt1
  if eventType = "onmousemove" then
    ⟨.undefined, err,
      self.deliver (.FireMouseEvent { evt2 with type := .kType_MouseMoved })⟩
  else if eventType = "onmousedown" then
    ⟨.undefined, err,
      self.deliver (.FireMouseEvent { evt2 with type := .kType_MouseDown })⟩
  else if eventType = "onmouseup" then
    ⟨.undefined, err,
      self.deliver (.FireMouseEvent { evt2 with type := .kType_MouseUp })⟩
  else
    ⟨.undefined, firstThrown err (some ⟨.Error, "Invalid event type"⟩), self⟩

/-- `GUIFrame::DispatchKeyEvent` (lines 131-149). `eventType` is the string
`info[0]`; `info1` is `info[1]`, undefined when omitted. Line 135 reads it
before the type string is looked at. -/
def DispatchKeyEvent (ext : Externals) (self : GUIFrame)
    (eventType : String) (info1 : Value) : Outcome Value :=
  let keyCode := info1.AsUint32.1
  let err := info1.AsUint32.2
  if eventType = "onkeyup" then
    ⟨.undefined, err,
      self.deliver (.FireKeyEvent ⟨.kType_KeyUp, ext.GLFWKeyCodeToUltralightKeyCode keyCode⟩)⟩
  else if eventType = "onkeydown" then
    ⟨.undefined, err,
      self.deliver
        (.FireKeyEvent ⟨.kType_RawKeyDown, ext.GLFWKeyCodeToUltralightKeyCode keyCode⟩)⟩
  else
    ⟨.undefined, firstThrown err (some ⟨.Error, "Invalid event type"⟩), self⟩

/-- `GUIFrame::DispatchScrollEvent` (lines 151-161), for deltas that are
numbers. The event type string is read and not used. -/
def DispatchScrollEvent (self : GUIFrame)
    (_eventType : String) (info1 info2 : JSNumber) : Outcome Value :=
  ⟨.undefined, none,
    self.deliver (.FireScrollEvent
      ⟨.kType_ScrollByPixel, toInt (Uint32Value info1), toInt (Uint32Value info2)⟩)⟩

/-! ## Events raised by the engine -/

/-- `GUIFrame::OnChangeCursor` (lines 170-176). -/
def OnChangeCursor (ext : Externals) (self : GUIFrame) (cursor : Nat) : Outcome Unit :=
  match self.oncursorchange with
  | none => ⟨(), none, self⟩
  | some f => ⟨(), none, self.callHost f [.string (ext.UlCursorToString cursor)]⟩

/-- The record handed to the console-message handler (lines 189-207). -/
def consoleRecord (ext : Externals) (level : Nat) (message : String)
    (line_number column_number : Nat) (source_id : String) : Value :=
  .object
    [("level", .string (ext.UlMessageLevelToString level)),
     ("callee", ext.console (ext.UlMessageLevelToString level)),
     ("message", .string (c_str message)),
     ("source", .string (if source_id.isEmpty then "" else c_str source_id)),
     ("location", .object
        [("line", .number (.ofInt line_number)),
         ("column", .number (.ofInt column_number))])]

/-- `GUIFrame::OnAddConsoleMessage` (lines 178-209). -/
def OnAddConsoleMessage (ext : Externals) (self : GUIFrame) (_source level : Nat)
    (message : String) (line_number column_number : Nat) (source_id : String) :
    Outcome Unit :=
  match self.onconsolemessage with
  | none => ⟨(), none, self⟩
  | some f =>
    ⟨(), none,
      self.callHost f [consoleRecord ext level message line_number column_number source_id]⟩

/-- Arguments the host handler is called with (lines 217-230). -/
def hostArgs (ext : Externals) (info : List Value) : List Value :=
  let buffer := Value.arrayBuffer (arg info 0).bytes
  if info.length = 2 ∧ (arg info 1).IsObject = true then
    [buffer, ext.ConvertJSC2NAPIObject (arg info 1)]
  else
    [buffer]

/-- `GUIFrame::OnDispatchBinaryBuffer` (lines 211-241), page to host. The
returned value is the one handed to the page; the exception is thrown in the
host runtime. A number goes through `Int32Value()`. -/
def OnDispatchBinaryBuffer (ext : Externals) (self : GUIFrame) (info : List Value) :
    Outcome Value :=
  match decide (info.length ≥ 1) && (arg info 0).IsObject, self.onbinarymessage with
  | true, some f =>
    let self1 := self.callHost f (hostArgs ext info)
    match ext.hostFn f (hostArgs ext info) with
    | .undefined => ⟨.undefined, none, self1⟩
    | .boolean b => ⟨.boolean b, none, self1⟩
    | .number n => ⟨.number (.ofInt (Int32Value n)), none, self1⟩
    | _ => ⟨.undefined, some ⟨.TypeError, "'onbinarymessage' returned an invalid type"⟩, self1⟩
  | _, _ => ⟨.undefined, none, self⟩

/-! ## Accessors -/

/-- The value a getter returns for a slot: null when empty, else the function. -/
def slotValue : Option Nat → Value
  | none => .null
  | some f => .function f

/-- `GUIFrame::Getonbinarymessage` (lines 244-248). -/
def Getonbinarymessage (self : GUIFrame) : Value :=
  slotValue self.onbinarymessage

/-- `GUIFrame::Setonbinarymessage` (lines 249-254). -/
def Setonbinarymessage (self : GUIFrame) (value : Value) : Outcome Unit :=
  match value with
  | .function f => ⟨(), none, { self with onbinarymessage := some f }⟩
  | .null => ⟨(), none, { self with onbinarymessage := none }⟩
  | _ => ⟨(), some ⟨.TypeError, "Argument 1 must be of type 'Function'"⟩, self⟩

/-- `GUIFrame::Getoncursorchange` (lines 257-261). -/
def Getoncursorchange (self : GUIFrame) : Value :=
  slotValue self.oncursorchange

/-- `GUIFrame::Setoncursorchange` (lines 262-267). -/
def Setoncursorchange (self : GUIFrame) (value : Value) : Outcome Unit :=
  match value with
  | .function f => ⟨(), none, { self with oncursorchange := some f }⟩
  | .null => ⟨(), none, { self with oncursorchange := none }⟩
  | _ => ⟨(), some ⟨.TypeError, "Argument 1 must be of type 'Function'"⟩, self⟩

/-- `GUIFrame::Getonconsolemessage` (lines 270-274). -/
def Getonconsolemessage (self : GUIFrame) : Value :=
  slotValue self.onconsolemessage

/-- `GUIFrame::Setonconsolemessage` (lines 275-280). -/
def Setonconsolemessage (self : GUIFrame) (value : Value) : Outcome Unit :=
  match value with
  | .function f => ⟨(), none, { self with onconsolemessage := some f }⟩
  | .null => ⟨(), none, { self with onconsolemessage := none }⟩
  | _ => ⟨(), some ⟨.TypeError, "Argument 1 must be of type 'Function'"⟩, self⟩

/-! ## Concrete inputs -/

/-- The number 1.5. -/
def oneAndAHalf : JSNumber :=
  .fin ⟨3, 2, by decide, by decide⟩

/-- Externals whose script functions all return the string "text". -/
def textExt : Externals where
  hostFn := fun _ _ => .string "text"
  pageFn := fun _ _ => .string "text"
  ConvertNAPI2JSCObject := id
  ConvertJSC2NAPIObject := id
  GLFWMouseButtonToUltralightMouseButton := fun b =>
    if b = 0 then .kButton_Left else if b = 1 then .kButton_Right
    else if b = 2 then .kButton_Middle else .kButton_None
  GLFWKeyCodeToUltralightKeyCode := fun k => k
  UlCursorToString := fun _ => "pointer"
  UlMessageLevelToString := fun _ => "log"
  console := fun _ => .function 0

/-- Externals whose script functions return 1.5 (function 0) or 2^31 (any
other function). -/
def numberExt : Externals :=
  { textExt with
    hostFn := fun f _ => if f = 0 then .number oneAndAHalf else .number (.ofInt (2 ^ 31))
    pageFn := fun f _ => if f = 0 then .number oneAndAHalf else .number (.ofInt (2 ^ 31)) }

/-- A frame with handler `h` in each slot and page handler `w`. -/
def frameWith (h : Option Nat) (w : Value) : GUIFrame :=
  ⟨h, h, h, [], w, [], []⟩

/-- The exception of lines 124 and 143. -/
def invalidEventType : JSError :=
  ⟨.Error, "Invalid event type"⟩

/-- The exception of lines 253, 266 and 279. -/
def notAFunction : JSError :=
  ⟨.TypeError, "Argument 1 must be of type 'Function'"⟩

/-! ## Properties -/

/-- C2 at the failing inputs: a handler that returns 1.5 (function 0) or 2^31
(function 1). Host to page, `DispatchBinaryBuffer` returns the handler's number
unchanged. Page to host, `OnDispatchBinaryBuffer` hands the page 1 for 1.5 and
-2^31 for 2^31: the number went through `Int32Value()` and is no longer the
handler's value. -/
theorem page_to_host_number_result_truncated :
    (DispatchBinaryBuffer numberExt (frameWith none (.function 0)) [.arrayBuffer []]).ret =
      .number oneAndAHalf ∧
    (DispatchBinaryBuffer numberExt (frameWith none (.function 1)) [.arrayBuffer []]).ret =
      .number (.ofInt (2 ^ 31)) ∧
    (OnDispatchBinaryBuffer numberExt (frameWith (some 0) .null) [.arrayBuffer []]).ret =
      .number (.ofInt 1) ∧
    (OnDispatchBinaryBuffer numberExt (frameWith (some 1) .null) [.arrayBuffer []]).ret =
      .number (.ofInt (-(2 ^ 31))) ∧
    (OnDispatchBinaryBuffer numberExt (frameWith (some 0) .null) [.arrayBuffer []]).thrown =
      none ∧
    JSNumber.ofInt 1 ≠ oneAndAHalf ∧
    JSNumber.ofInt (-(2 ^ 31)) ≠ JSNumber.ofInt (2 ^ 31) := by
  refine ⟨rfl, rfl, ?_, ?_, rfl, by decide, by decide⟩
  · show Value.number (.ofInt (Int32Value oneAndAHalf)) = _
    have h : Int32Value oneAndAHalf = 1 := by decide
    rw [h]
  · show Value.number (.ofInt (Int32Value (.ofInt (2 ^ 31)))) = _
    have h : Int32Value (.ofInt (2 ^ 31)) = -(2 ^ 31) := by decide
    rw [h]

/-- C3: when the page property `window.onbinarymessage` is not a function,
`DispatchBinaryBuffer` returns undefined, throws nothing and leaves the frame as
it was, for every argument list; in particular no page function is called. -/
theorem dispatch_without_page_handler (ext : Externals) (self : GUIFrame)
    (info : List Value) (h : self.window_onbinarymessage.IsFunction = false) :
    (DispatchBinaryBuffer ext self info).ret = .undefined ∧
    (DispatchBinaryBuffer ext self info).thrown = none ∧
    (DispatchBinaryBuffer ext self info).frame = self ∧
    (DispatchBinaryBuffer ext self info).frame.pageCalls = self.pageCalls := by
  have key : DispatchBinaryBuffer ext self info = ⟨.undefined, none, self⟩ := by
    unfold DispatchBinaryBuffer
    split
    · rename_i hw
      rw [hw] at h
      simp [Value.IsFunction] at h
    · rfl
  rw [key]
  exact ⟨rfl, rfl, rfl, rfl⟩

/-- C3 at a concrete input: the page property is null, the arguments are a
buffer and a metadata object. -/
theorem dispatch_without_page_handler_witness :
    (frameWith (some 1) .null).window_onbinarymessage.IsFunction = false ∧
    (DispatchBinaryBuffer textExt (frameWith (some 1) .null)
      [.arrayBuffer [1, 2], .object []]).ret = .undefined ∧
    (DispatchBinaryBuffer textExt (frameWith (some 1) .null)
      [.arrayBuffer [1, 2], .object []]).thrown = none ∧
    (DispatchBinaryBuffer textExt (frameWith (some 1) .null)
      [.arrayBuffer [1, 2], .object []]).frame = frameWith (some 1) .null ∧
    (DispatchBinaryBuffer textExt (frameWith (some 1) .null)
      [.arrayBuffer [1, 2], .object []]).frame.pageCalls = [] :=
  ⟨rfl, dispatch_without_page_handler textExt (frameWith (some 1) .null)
    [.arrayBuffer [1, 2], .object []] rfl⟩

/-- C4: for each of the three slots and every handler `f` installed before:
once the slot has been set to null (which throws nothing), the engine event of
that slot throws nothing and leaves the frame as it was, so that no host
function is called; `OnDispatchBinaryBuffer` returns undefined. -/
theorem cleared_slot_is_not_invoked (ext : Externals) (self : GUIFrame) (f : Nat)
    (info : List Value) (cursor source level line column : Nat)
    (message source_id : String) :
    ((Setonbinarymessage (Setonbinarymessage self (.function f)).frame .null).thrown = none ∧
      OnDispatchBinaryBuffer ext
          (Setonbinarymessage (Setonbinarymessage self (.function f)).frame .null).frame info =
        ⟨.undefined, none,
          (Setonbinarymessage (Setonbinarymessage self (.function f)).frame .null).frame⟩ ∧
      (OnDispatchBinaryBuffer ext
          (Setonbinarymessage (Setonbinarymessage self (.function f)).frame .null).frame
          info).frame.hostCalls = self.hostCalls) ∧
    ((Setoncursorchange (Setoncursorchange self (.function f)).frame .null).thrown = none ∧
      OnChangeCursor ext
          (Setoncursorchange (Setoncursorchange self (.function f)).frame .null).frame cursor =
        ⟨(), none,
          (Setoncursorchange (Setoncursorchange self (.function f)).frame .null).frame⟩ ∧
      (OnChangeCursor ext
          (Setoncursorchange (Setoncursorchange self (.function f)).frame .null).frame
          cursor).frame.hostCalls = self.hostCalls) ∧
    ((Setonconsolemessage (Setonconsolemessage self (.function f)).frame .null).thrown = none ∧
      OnAddConsoleMessage ext
          (Setonconsolemessage (Setonconsolemessage self (.function f)).frame .null).frame
          source level message line column source_id =
        ⟨(), none,
          (Setonconsolemessage (Setonconsolemessage self (.function f)).frame .null).frame⟩ ∧
      (OnAddConsoleMessage ext
          (Setonconsolemessage (Setonconsolemessage self (.function f)).frame .null).frame
          source level message line column source_id).frame.hostCalls = self.hostCalls) := by
  refine ⟨⟨rfl, ?_, ?_⟩, ⟨rfl, rfl, rfl⟩, ⟨rfl, rfl, rfl⟩⟩
  · simp [OnDispatchBinaryBuffer, Setonbinarymessage]
  · simp [OnDispatchBinaryBuffer, Setonbinarymessage]

/-- C5: each of the three setters, given a value that is neither a function nor
null, throws the TypeError of its last line and leaves the whole frame as it
was: the slot it guards and the two other slots. -/
theorem setter_rejects_other_values (self : GUIFrame) (value : Value)
    (hf : value.IsFunction = false) (hn : value.IsNull = false) :
    Setonbinarymessage self value = ⟨(), some notAFunction, self⟩ ∧
    Setoncursorchange self value = ⟨(), some notAFunction, self⟩ ∧
    Setonconsolemessage self value = ⟨(), some notAFunction, self⟩ := by
  cases value <;>
    simp_all [Value.IsFunction, Value.IsNull, Setonbinarymessage, Setoncursorchange,
      Setonconsolemessage, notAFunction]

/-- C5 at a concrete input: the number 1.5 given to each setter of a frame
whose slots hold function 4. -/
theorem setter_rejects_other_values_witness :
    Setonbinarymessage (frameWith (some 4) .null) (.number oneAndAHalf) =
      ⟨(), some notAFunction, frameWith (some 4) .null⟩ ∧
    Setoncursorchange (frameWith (some 4) .null) (.number oneAndAHalf) =
      ⟨(), some notAFunction, frameWith (some 4) .null⟩ ∧
    Setonconsolemessage (frameWith (some 4) .null) (.number oneAndAHalf) =
      ⟨(), some notAFunction, frameWith (some 4) .null⟩ :=
  setter_rejects_other_values (frameWith (some 4) .null) (.number oneAndAHalf) rfl rfl

/-- C6: for each of the three accessors: the getter of a freshly constructed
frame returns null; after the setter was given a function `f` (on any frame,
in particular one where a function `g` had been set just before) the getter
returns `f`; after the setter was given null the getter returns null; none of
these sets throws. -/
theorem getter_returns_last_set (win : Value) (self : GUIFrame) (f g : Nat) :
    (Getonbinarymessage (GUIFrame.new win) = .null ∧
      Getonbinarymessage (Setonbinarymessage self (.function f)).frame = .function f ∧
      Getonbinarymessage (Setonbinarymessage
        (Setonbinarymessage self (.function g)).frame (.function f)).frame = .function f ∧
      (Setonbinarymessage self (.function f)).thrown = none ∧
      Getonbinarymessage (Setonbinarymessage self .null).frame = .null ∧
      (Setonbinarymessage self .null).thrown = none) ∧
    (Getoncursorchange (GUIFrame.new win) = .null ∧
      Getoncursorchange (Setoncursorchange self (.function f)).frame = .function f ∧
      Getoncursorchange (Setoncursorchange
        (Setoncursorchange self (.function g)).frame (.function f)).frame = .function f ∧
      (Setoncursorchange self (.function f)).thrown = none ∧
      Getoncursorchange (Setoncursorchange self .null).frame = .null ∧
      (Setoncursorchange self .null).thrown = none) ∧
    (Getonconsolemessage (GUIFrame.new win) = .null ∧
      Getonconsolemessage (Setonconsolemessage self (.function f)).frame = .function f ∧
      Getonconsolemessage (Setonconsolemessage
        (Setonconsolemessage self (.function g)).frame (.function f)).frame = .function f ∧
      (Setonconsolemessage self (.function f)).thrown = none ∧
      Getonconsolemessage (Setonconsolemessage self .null).frame = .null ∧
      (Setonconsolemessage self .null).thrown = none) :=
  ⟨⟨rfl, rfl, rfl, rfl, rfl, rfl⟩, ⟨rfl, rfl, rfl, rfl, rfl, rfl⟩,
    ⟨rfl, rfl, rfl, rfl, rfl, rfl⟩⟩

/-- A throw leaves an exception pending, whatever was pending before. -/
theorem firstThrown_some (first : Option JSError) (e : JSError) :
    ∃ e1, firstThrown first (some e) = some e1 := by
  cases first
  · exact ⟨e, rfl⟩
  · exact ⟨_, rfl⟩

/-- C7 as stated fails: `dispatchKeyEvent("onkeyup")` with the key code omitted
has a recognized type string, delivers its event and yet throws (a number was
expected); `dispatchKeyEvent("oninvalid")` with the key code omitted throws
that same TypeError, which is not the invalid-event-type error. -/
theorem key_event_without_code_throws_number_expected :
    "onkeyup" ∈ ["onkeyup", "onkeydown"] ∧
    DispatchKeyEvent textExt (frameWith none .null) "onkeyup" .undefined =
      ⟨.undefined, some numberExpected,
        (frameWith none .null).deliver (.FireKeyEvent ⟨.kType_KeyUp, 0⟩)⟩ ∧
    "oninvalid" ∉ ["onkeyup", "onkeydown"] ∧
    DispatchKeyEvent textExt (frameWith none .null) "oninvalid" .undefined =
      ⟨.undefined, some numberExpected, frameWith none .null⟩ ∧
    numberExpected ≠ invalidEventType := by
  refine ⟨by decide, rfl, by decide, rfl, by decide⟩

/-- C7, amended. Whatever the other arguments are (`x`, `y`, `keyCode`, `info3`
any values, omitted ones being undefined), `DispatchMouseEvent` and
`DispatchKeyEvent` deliver to the view exactly when the type string is
recognized: a recognized string leaves the frame with exactly one event more in
the view, any other string leaves the frame, hence the view, as it was and
throws. When the arguments read as numbers are numbers (`nx`, `ny`, `nk`), a
recognized string throws nothing and the event delivered has the type the
string names, the position read from `nx`, `ny`, respectively the key code
mapped from `nk`; any other string throws the error "Invalid event type" and
returns undefined. -/
theorem event_dispatch_by_type_string (ext : Externals) (evt0 : MouseEvent) (self : GUIFrame)
    (eventType : String) (x y keyCode info3 : Value) (nx ny nk : JSNumber) :
    ((eventType ∈ ["onmousemove", "onmousedown", "onmouseup"] →
        ∃ evt, (DispatchMouseEvent ext evt0 self eventType x y info3).frame =
          self.deliver (.FireMouseEvent evt)) ∧
      (eventType ∉ ["onmousemove", "onmousedown", "onmouseup"] →
        (DispatchMouseEvent ext evt0 self eventType x y info3).frame = self ∧
        ∃ e, (DispatchMouseEvent ext evt0 self eventType x y info3).thrown = some e) ∧
      (eventType ∈ ["onkeyup", "onkeydown"] →
        ∃ evt, (DispatchKeyEvent ext self eventType keyCode).frame =
          self.deliver (.FireKeyEvent evt)) ∧
      (eventType ∉ ["onkeyup", "onkeydown"] →
        (DispatchKeyEvent ext self eventType keyCode).frame = self ∧
        ∃ e, (DispatchKeyEvent ext self eventType keyCode).thrown = some e)) ∧
    ((∃ b, DispatchMouseEvent ext evt0 self "onmousemove" (.number nx) (.number ny) info3 =
        ⟨.undefined, none, self.deliver (.FireMouseEvent
          ⟨.kType_MouseMoved, toInt (Uint32Value nx), toInt (Uint32Value ny), b⟩)⟩) ∧
      (∃ b, DispatchMouseEvent ext evt0 self "onmousedown" (.number nx) (.number ny) info3 =
        ⟨.undefined, none, self.deliver (.FireMouseEvent
          ⟨.kType_MouseDown, toInt (Uint32Value nx), toInt (Uint32Value ny), b⟩)⟩) ∧
      (∃ b, DispatchMouseEvent ext evt0 self "onmouseup" (.number nx) (.number ny) info3 =
        ⟨.undefined, none, self.deliver (.FireMouseEvent
          ⟨.kType_MouseUp, toInt (Uint32Value nx), toInt (Uint32Value ny), b⟩)⟩) ∧
      (eventType ∉ ["onmousemove", "onmousedown", "onmouseup"] →
        DispatchMouseEvent ext evt0 self eventType (.number nx) (.number ny) info3 =
          ⟨.undefined, some invalidEventType, self⟩) ∧
      DispatchKeyEvent ext self "onkeyup" (.number nk) =
        ⟨.undefined, none, self.deliver (.FireKeyEvent
          ⟨.kType_KeyUp, ext.GLFWKeyCodeToUltralightKeyCode (Uint32Value nk)⟩)⟩ ∧
      DispatchKeyEvent ext self "onkeydown" (.number nk) =
        ⟨.undefined, none, self.deliver (.FireKeyEvent
          ⟨.kType_RawKeyDown, ext.GLFWKeyCodeToUltralightKeyCode (Uint32Value nk)⟩)⟩ ∧
      (eventType ∉ ["onkeyup", "onkeydown"] →
        DispatchKeyEvent ext self eventType (.number nk) =
          ⟨.undefined, some invalidEventType, self⟩)) := by
  refine ⟨⟨?_, ?_, ?_, ?_⟩, ⟨?_, ?_, ?_, ?_, rfl, rfl, ?_⟩⟩
  · intro h
    simp only [List.mem_cons, List.mem_singleton, List.not_mem_nil, or_false] at h
    unfold DispatchMouseEvent
    rcases h with h | h | h <;> subst h <;> simp <;> exact ⟨_, rfl⟩
  · intro h
    simp only [List.mem_cons, List.mem_singleton, List.not_mem_nil, or_false, not_or] at h
    simp only [DispatchMouseEvent, h.1, h.2.1, h.2.2, if_false, true_and]
    exact firstThrown_some _ _
  · intro h
    simp only [List.mem_cons, List.mem_singleton, List.not_mem_nil, or_false] at h
    unfold DispatchKeyEvent
    rcases h with h | h <;> subst h <;> simp <;> exact ⟨_, rfl⟩
  · intro h
    simp only [List.mem_cons, List.mem_singleton, List.not_mem_nil, or_false, not_or] at h
    simp only [DispatchKeyEvent, h.1, h.2, if_false, true_and]
    exact firstThrown_some _ _
  · cases info3 <;> exact ⟨_, rfl⟩
  · cases info3 <;> exact ⟨_, rfl⟩
  · cases info3 <;> exact ⟨_, rfl⟩
  · intro h
    simp only [List.mem_cons, List.mem_singleton, List.not_mem_nil, or_false, not_or] at h
    simp [DispatchMouseEvent, Value.AsUint32, firstThrown, h.1, h.2.1, h.2.2,
      invalidEventType]
  · intro h
    simp only [List.mem_cons, List.mem_singleton, List.not_mem_nil, or_false, not_or] at h
    simp [DispatchKeyEvent, Value.AsUint32, firstThrown, h.1, h.2, invalidEventType]

/-- C7, amended, at concrete inputs: `dispatchKeyEvent("oninvalid", 65)` and
`dispatchMouseEvent("click", 1, 2)` are rejected with the invalid-event-type
error and leave the frame as it was; `dispatchKeyEvent("oninvalid")` delivers
nothing; `dispatchKeyEvent("onkeydown", 65)` delivers one raw-key-down event
with the mapped code and throws nothing. -/
theorem event_dispatch_by_type_string_witness :
    DispatchKeyEvent textExt (frameWith none .null) "oninvalid" (.number (.ofInt 65)) =
      ⟨.undefined, some invalidEventType, frameWith none .null⟩ ∧
    DispatchMouseEvent textExt ⟨.kType_MouseDown, 0, 0, .kButton_None⟩ (frameWith none .null)
        "click" (.number (.ofInt 1)) (.number (.ofInt 2)) .undefined =
      ⟨.undefined, some invalidEventType, frameWith none .null⟩ ∧
    (DispatchKeyEvent textExt (frameWith none .null) "oninvalid" .undefined).frame =
      frameWith none .null ∧
    DispatchKeyEvent textExt (frameWith none .null) "onkeydown" (.number (.ofInt 65)) =
      ⟨.undefined, none, (frameWith none .null).deliver (.FireKeyEvent
        ⟨.kType_RawKeyDown,
          textExt.GLFWKeyCodeToUltralightKeyCode (Uint32Value (.ofInt 65))⟩)⟩ :=
  ⟨(event_dispatch_by_type_string textExt ⟨.kType_MouseDown, 0, 0, .kButton_None⟩
      (frameWith none .null) "oninvalid" .undefined .undefined .undefined .undefined
      (.ofInt 1) (.ofInt 2) (.ofInt 65)).2.2.2.2.2.2.2 (by decide),
   (event_dispatch_by_type_string textExt ⟨.kType_MouseDown, 0, 0, .kButton_None⟩
      (frameWith none .null) "click" .undefined .undefined .undefined .undefined
      (.ofInt 1) (.ofInt 2) (.ofInt 65)).2.2.2.2.1 (by decide),
   ((event_dispatch_by_type_string textExt ⟨.kType_MouseDown, 0, 0, .kButton_None⟩
      (frameWith none .null) "oninvalid" .undefined .undefined .undefined .undefined
      (.ofInt 1) (.ofInt 2) (.ofInt 65)).1.2.2.2 (by decide)).1,
   (event_dispatch_by_type_string textExt ⟨.kType_MouseDown, 0, 0, .kButton_None⟩
      (frameWith none .null) "oninvalid" .undefined .undefined .undefined .undefined
      (.ofInt 1) (.ofInt 2) (.ofInt 65)).2.2.2.2.2.2.1⟩

/-- C8 at the failing input: `dispatchMouseEvent("onmousemove", 10, 20)` with
the fourth argument omitted, when the storage of the local event held the left
button before the call. The event delivered is of type mouse-moved at (10, 20)
and its button is still the left button: no line of the method writes the
field on this path. -/
theorem mouse_move_keeps_unwritten_button :
    DispatchMouseEvent textExt ⟨.kType_MouseUp, 0, 0, .kButton_Left⟩ (frameWith none .null)
        "onmousemove" (.number (.ofInt 10)) (.number (.ofInt 20)) .undefined =
      ⟨.undefined, none, (frameWith none .null).deliver
        (.FireMouseEvent ⟨.kType_MouseMoved, 10, 20, .kButton_Left⟩)⟩ ∧
    (⟨.kType_MouseMoved, 10, 20, .kButton_Left⟩ : MouseEvent).button ≠ .kButton_None := by
  constructor
  · rfl
  · decide

/-- C9 at the failing input: `loadHTML(42)`. The method returns undefined with
no exception thrown, and the view is not called. -/
theorem load_html_non_string_throws_nothing :
    (LoadHTML (frameWith none .null) [.number (.ofInt 42)]).thrown = none ∧
    (LoadHTML (frameWith none .null) [.number (.ofInt 42)]).ret = .undefined ∧
    (LoadHTML (frameWith none .null) [.number (.ofInt 42)]).frame = frameWith none .null :=
  ⟨rfl, rfl, rfl⟩

/-- Reading a signed 32-bit integer through `Uint32Value()` and assigning the
result to an `int` gives the integer back. -/
theorem toInt_Uint32Value_ofInt (d : Int) (hlo : -(2 ^ 31) ≤ d) (hhi : d < 2 ^ 31) :
    toInt (Uint32Value (.ofInt d)) = d := by
  have htr : truncate (Rat.ofInt d) = d := by simp [truncate, Rat.ofInt]
  simp only [Uint32Value, JSNumber.ofInt, htr, toInt]
  have h0 : (0 : Int) ≤ d % 2 ^ 32 := Int.emod_nonneg _ (by norm_num)
  have h1 : d % 2 ^ 32 < 2 ^ 32 := Int.emod_lt_of_pos _ (by norm_num)
  omega

/-- C10: for every type string and all signed 32-bit integers `dx` and `dy`,
`DispatchScrollEvent` throws nothing, returns undefined and delivers to the
view exactly one event, of the scroll-by-pixel kind, with deltas `dx` and `dy`. -/
theorem scroll_event_keeps_signed_deltas (self : GUIFrame) (eventType : String)
    (dx dy : Int) (hx : -(2 ^ 31) ≤ dx ∧ dx < 2 ^ 31) (hy : -(2 ^ 31) ≤ dy ∧ dy < 2 ^ 31) :
    DispatchScrollEvent self eventType (.ofInt dx) (.ofInt dy) =
      ⟨.undefined, none,
        self.deliver (.FireScrollEvent ⟨.kType_ScrollByPixel, dx, dy⟩)⟩ := by
  unfold DispatchScrollEvent
  rw [toInt_Uint32Value_ofInt dx hx.1 hx.2, toInt_Uint32Value_ofInt dy hy.1 hy.2]

/-- C10 at a concrete input: deltas -3 and -2^31 with a type string that names
no event. -/
theorem scroll_event_keeps_signed_deltas_witness :
    DispatchScrollEvent (frameWith none .null) "anything" (.ofInt (-3)) (.ofInt (-(2 ^ 31))) =
      ⟨.undefined, none, (frameWith none .null).deliver
        (.FireScrollEvent ⟨.kType_ScrollByPixel, -3, -(2 ^ 31)⟩)⟩ :=
  scroll_event_keeps_signed_deltas (frameWith none .null) "anything" (-3) (-(2 ^ 31))
    (by decide) (by decide)

end nodegui
